import Mathlib

/-! Response interpretation of the oVirt SDK (`service.go`).

A shallow embedding of `CheckFault`, `CheckAction` and `BuildError` of
`service.go`, followed by the properties of the specification proved about it.

Modelling conventions.

* A Go `error` value is a `GoError`: the outcome of the type assertion
  `err.(XMLTagNotMatchError)` together with the text returned by `err.Error()`.
  A nil `error` is `none`.
* A Go pointer that may be nil (`*Fault`, `*Action`, `*http.Response`) is an
  `Option`.
* A Go pair `(value, ok)` returned by an accessor is an `Option`.
* A Go pair `(value, err)` returned by a reader stays a pair of two options:
  the code tests the two components separately.
* The XML readers `XMLFaultReadOne` and `XMLActionReadOne` live outside
  `service.go`; they are parameters of the orchestrators (`XMLReaders`).
* `bytes.Buffer` is the text written so far; `Len` is its size in bytes.
* `StatusCode` is an `Int`: the code only compares it with 400 and prints it,
  so no arithmetic can overflow.
* The body stream and the `XMLReader`s are mutable in Go. The orchestrators are
  given twice: as functions of what the operations return (`CheckFault`,
  `CheckAction`), and over an explicit environment that the operations change
  (`CheckFaultM`, `CheckActionM`); the two are proved to agree.
-/

namespace Ovirtsdk4

/-! ## Errors -/

/-- A Go `error` value, as far as `service.go` observes it. -/
structure GoError where
  /-- Whether the dynamic type of the error is `XMLTagNotMatchError`. -/
  isXMLTagNotMatchError : Bool
  /-- The text of `err.Error()`. -/
  Error : String
  deriving DecidableEq, Repr

/-- The value of `errors.New(text)`: an error of the standard library's own
string error type, never an `XMLTagNotMatchError`. -/
def errorsNew (text : String) : GoError :=
  { isXMLTagNotMatchError := false, Error := text }

/-! ## Formatting -/

/-- The operand of a formatting verb. -/
inductive FmtArg where
  | str (s : String)
  | int (n : Int)
  deriving DecidableEq, Repr

/-- The verb `%d` on an integer: decimal digits, with a leading minus sign for
a negative number. -/
def formatDecimal : Int → String
  | Int.ofNat m => Nat.repr m
  | Int.negSucc m => "-" ++ Nat.repr (m + 1)

/-- Expansion of a format with one operand: the text up to the first verb is
copied, the verb (`%s` on a string, `%d` on an integer) is replaced by the
operand, and the text after it is copied. These are the formats and operands
`service.go` uses. -/
def sprintfChars : List Char → FmtArg → List Char
  | [], _ => []
  | '%' :: 's' :: rest, FmtArg.str s => s.data ++ rest
  | '%' :: 'd' :: rest, FmtArg.int n => (formatDecimal n).data ++ rest
  | c :: rest, a => c :: sprintfChars rest a

/-- The function `fmt.Sprintf(format, arg)` for a format with one verb. -/
def Sprintf (format : String) (arg : FmtArg) : String :=
  String.mk (sprintfChars format.data arg)

/-- The function `fmt.Errorf(format, arg)`: an error whose text is the
formatted string. -/
def Errorf (format : String) (arg : FmtArg) : GoError :=
  errorsNew (Sprintf format arg)

/-! ## `bytes.Buffer` -/

/-- A `bytes.Buffer` that is only written to: the text accumulated so far. -/
structure Buffer where
  contents : String
  deriving DecidableEq, Repr

/-- The zero value `var buffer bytes.Buffer`. -/
def Buffer.empty : Buffer := { contents := "" }

/-- The method `buffer.Len()`: the number of bytes in the buffer. -/
def Buffer.Len (b : Buffer) : Nat := b.contents.utf8ByteSize

/-- The method `buffer.WriteString(s)`: appends `s`. -/
def Buffer.WriteString (b : Buffer) (s : String) : Buffer :=
  { contents := b.contents ++ s }

/-- The method `buffer.String()`. -/
def Buffer.String (b : Buffer) : String := b.contents

/-! ## Data model -/

/-- Modelled from the spec: the type `Fault` is declared outside `service.go`.
A fault has an optional reason and an optional detail; the accessors
`Reason()` and `Detail()` return the text together with a presence flag. -/
structure Fault where
  reason : Option String
  detail : Option String
  deriving DecidableEq, Repr

/-- The accessor `fault.Reason()`. -/
def Fault.Reason (f : Fault) : Option String := f.reason

/-- The accessor `fault.Detail()`. -/
def Fault.Detail (f : Fault) : Option String := f.detail

/-- Modelled from the spec: the type `Action` is declared outside
`service.go`. An action is a decoded result (`payload` stands for all its
other fields) that may carry an embedded fault. -/
structure Action (P : Type) where
  payload : P
  fault : Option Fault
  deriving DecidableEq, Repr

/-- The accessor `action.Fault()`. -/
def Action.Fault {P : Type} (a : Action P) : Option Fault := a.fault

/-- The body stream of a response: the chunks that successive reads of the
stream deliver, and the error that ends the stream, if it does not end in a
plain end of file. -/
structure ReadCloser where
  chunks : List (List UInt8)
  err : Option GoError
  deriving DecidableEq, Repr

/-- The function `ioutil.ReadAll(body)`: it reads the stream to its end and
returns all the bytes read, together with the error that ended the stream, if
any. -/
def ReadAll (body : ReadCloser) : List UInt8 × Option GoError :=
  (body.chunks.flatten, body.err)

/-- The type `http.Response`: the three fields that `service.go` reads,
`StatusCode`, `Status` and `Body`, and three of the fields that it does not
read, `Proto`, `Header` and `ContentLength`. -/
structure Response where
  StatusCode : Int
  Status : String
  Proto : String
  Header : List (String × List String)
  ContentLength : Int
  Body : ReadCloser
  deriving DecidableEq, Repr

/-- An `XMLReader` over a byte slice, positioned at its start. -/
structure XMLReader where
  input : List UInt8
  deriving DecidableEq, Repr

/-- The constructor `NewXMLReader(bytes)`. -/
def NewXMLReader (bytes : List UInt8) : XMLReader := { input := bytes }

/-- The two XML readers used by `service.go`, which are defined outside it.
Each returns a Go pair `(value, err)`. -/
structure XMLReaders (P : Type) where
  XMLFaultReadOne : XMLReader → Option Fault × Option GoError
  XMLActionReadOne : XMLReader → Option (Action P) × Option GoError

/-! ## `BuildError` -/

/-- The function `BuildError(response, fault)`. -/
def BuildError (response : Option Response) (fault : Option Fault) : GoError := Id.run do
  let mut buffer := Buffer.empty
  if let some fault := fault then
    if let some reason := fault.Reason then
      if buffer.Len > 0 then
        buffer := buffer.WriteString " "
      buffer := buffer.WriteString (Sprintf "Fault reason is \"%s\"." (FmtArg.str reason))
    if let some detail := fault.Detail then
      if buffer.Len > 0 then
        buffer := buffer.WriteString " "
      buffer := buffer.WriteString (Sprintf "Fault detail is \"%s\"." (FmtArg.str detail))
  if let some response := response then
    if buffer.Len > 0 then
      buffer := buffer.WriteString " "
    buffer := buffer.WriteString
      (Sprintf "HTTP response code is \"%d\"." (FmtArg.int response.StatusCode))
    buffer := buffer.WriteString " "
    buffer := buffer.WriteString
      (Sprintf "HTTP response message is \"%s\"." (FmtArg.str response.Status))
  return errorsNew buffer.String

/-! ## `CheckFault` -/

/-- The function `CheckFault(response)`; `none` is the nil error. -/
def CheckFault {P : Type} (rd : XMLReaders P) (response : Response) : Option GoError :=
  Id.run do
  let (resBytes, err) := ReadAll response.Body
  if let some err := err then
    return some (Errorf "Failed to read response, reason: %s" (FmtArg.str err.Error))

  let reader := NewXMLReader resBytes
  let (fault, err) := rd.XMLFaultReadOne reader
  if let some err := err then
    -- If the XML is not a <fault>, just return nil
    if err.isXMLTagNotMatchError then
      return none
    return some err
  if fault ≠ none ∨ response.StatusCode ≥ 400 then
    return some (BuildError (some response) fault)
  return none

/-! ## `CheckAction` -/

/-- The function `CheckAction(response)`: the Go pair `(action, err)`. -/
def CheckAction {P : Type} (rd : XMLReaders P) (response : Response) :
    Option (Action P) × Option GoError := Id.run do
  let (resBytes, err) := ReadAll response.Body
  if let some err := err then
    return (none, some (Errorf "Failed to read response, reason: %s" (FmtArg.str err.Error)))

  let faultreader := NewXMLReader resBytes
  let (fault, err) := rd.XMLFaultReadOne faultreader
  if let some err := err then
    -- If the tag mismatches, return the err
    if !err.isXMLTagNotMatchError then
      return (none, some err)
  if let some fault := fault then
    return (none, some (BuildError (some response) (some fault)))

  let actionreader := NewXMLReader resBytes
  let (action, err) := rd.XMLActionReadOne actionreader
  if let some err := err then
    -- If the tag mismatches, return the err
    if !err.isXMLTagNotMatchError then
      return (none, some err)
  if let some action := action then
    if let some afault := action.Fault then
      return (none, some (BuildError (some response) (some afault)))
    return (some action, none)
  return (none, none)

/-! ## The composed message, as the specification words it -/

/-- The segment `Fault reason is "<reason>".` of the specification. -/
def reasonSegment (reason : String) : String :=
  "Fault reason is \"" ++ reason ++ "\"."

/-- The segment `Fault detail is "<detail>".` of the specification. -/
def detailSegment (detail : String) : String :=
  "Fault detail is \"" ++ detail ++ "\"."

/-- The segment `HTTP response code is "<code>".` of the specification, the
code in decimal. -/
def codeSegment (code : Int) : String :=
  "HTTP response code is \"" ++ formatDecimal code ++ "\"."

/-- The segment `HTTP response message is "<status text>".` of the
specification. -/
def messageSegment (status : String) : String :=
  "HTTP response message is \"" ++ status ++ "\"."

/-- The ordered list of present segments of section 4.4 of the specification:
the reason segment if the fault and its reason are present, the detail segment
if the fault and its detail are present, the two HTTP segments if a response
was supplied. -/
def specSegments (response : Option Response) (fault : Option Fault) : List String :=
  (match fault with
    | some f => (f.reason.map reasonSegment).toList ++ (f.detail.map detailSegment).toList
    | none => [])
  ++
  (match response with
    | some r => [codeSegment r.StatusCode, messageSegment r.Status]
    | none => [])

/-- Joining segments with a single space between consecutive ones, nothing
before the first and nothing after the last. -/
def joinSingleSpace : List String → String
  | [] => ""
  | [segment] => segment
  | segment :: next :: rest => segment ++ " " ++ joinSingleSpace (next :: rest)

/-- The composer of section 4.4 of the specification: the present segments
joined with a single space. -/
def specCompose (response : Option Response) (fault : Option Fault) : String :=
  joinSingleSpace (specSegments response fault)

/-- The reader's error is nil or a tag mismatch: the two cases in which
`CheckAction` goes on after a reader returned. -/
def nilOrTagMismatch : Option GoError → Bool
  | none => true
  | some err => err.isXMLTagNotMatchError

/-! ## Sample readers and responses

A small pair of readers over one-letter documents, used to instantiate the
theorems: the body `f` is a fault document, `a` an action document without a
fault, `n` an action document with a nested fault, `F` and `A` are malformed
fault and action documents, the empty body holds no element at all (both
readers return nothing and no error), and any other body matches neither root
tag. -/

/-- The error of a root tag mismatch. -/
def sampleMismatch : GoError :=
  { isXMLTagNotMatchError := true, Error := "Tag not matched" }

/-- The error of a malformed document. -/
def sampleMalformed : GoError :=
  { isXMLTagNotMatchError := false, Error := "XML syntax error" }

/-- The fault of the sample fault document. -/
def sampleFault : Fault :=
  { reason := some "Operation Failed", detail := some "[Cannot run VM]" }

/-- The fault nested in the sample action document `n`. -/
def sampleNestedFault : Fault :=
  { reason := some "Incomplete parameters", detail := none }

/-- The action of the sample document `a`. -/
def sampleAction : Action Nat :=
  { payload := 7, fault := none }

/-- The action of the sample document `n`. -/
def sampleFaultyAction : Action Nat :=
  { payload := 9, fault := some sampleNestedFault }

/-- The sample fault reader. -/
def sampleFaultReader (reader : XMLReader) : Option Fault × Option GoError :=
  if reader.input = [] then (none, none)
  else if reader.input = [102] then (some sampleFault, none)
  else if reader.input = [70] then (none, some sampleMalformed)
  else (none, some sampleMismatch)

/-- The sample action reader. -/
def sampleActionReader (reader : XMLReader) : Option (Action Nat) × Option GoError :=
  if reader.input = [] then (none, none)
  else if reader.input = [97] then (some sampleAction, none)
  else if reader.input = [110] then (some sampleFaultyAction, none)
  else if reader.input = [65] then (none, some sampleMalformed)
  else (none, some sampleMismatch)

/-- The sample readers. -/
def sampleReaders : XMLReaders Nat :=
  { XMLFaultReadOne := sampleFaultReader, XMLActionReadOne := sampleActionReader }

/-- A response with the given status code, status text and body bytes, whose
body is delivered in one chunk and reads without error. -/
def sampleResponse (code : Int) (status : String) (body : List UInt8) : Response :=
  { StatusCode := code, Status := status, Proto := "HTTP/1.1", Header := [],
    ContentLength := -1, Body := { chunks := [body], err := none } }

/-- The error of a body stream that breaks while it is read. -/
def sampleReadError : GoError :=
  { isXMLTagNotMatchError := false, Error := "unexpected EOF" }

/-- A response whose body stream fails with `sampleReadError` after the given
bytes. -/
def sampleBrokenResponse (code : Int) (status : String) (body : List UInt8) : Response :=
  { StatusCode := code, Status := status, Proto := "HTTP/1.1", Header := [],
    ContentLength := -1, Body := { chunks := [body], err := some sampleReadError } }

/-- The sample fault document as another server would send it: the same
status code, status text and body bytes as
`sampleResponse 500 "500 Internal Server Error" [102]`, under another protocol
version, with headers, and with the body delivered in three chunks. -/
def sampleChunkedFaultResponse : Response :=
  { StatusCode := 500, Status := "500 Internal Server Error", Proto := "HTTP/2.0",
    Header := [("Content-Type", ["application/xml"])], ContentLength := 1,
    Body := { chunks := [[], [102], []], err := none } }

/-! ## The orchestrators with their effects made explicit

The orchestrators act on their environment in three ways: they read the body
stream of the response, which drains it, and they run the two XML readers,
each of which advances the `XMLReader` it is given (the orchestrators do not
look at a reader again after the run). Below, the environment is
a state (`World`) that the three operations change themselves: each operation
appends the record of its own run to the log of the world, and the read of
the body leaves the stream of the world drained. The orchestrators are then
written once more, line by line, over these operations. The byte slice
returned by `ioutil.ReadAll` is not written to by anyone. -/

/-- An effect of an orchestrator, as seen from outside. -/
inductive Event where
  /-- The call `ioutil.ReadAll(response.Body)`, which drains the body stream. -/
  | readBody
  /-- A run of `XMLFaultReadOne` on a reader found in state `entry` and left in
  state `exit`. -/
  | faultRead (entry exit : XMLReader)
  /-- A run of `XMLActionReadOne` on a reader found in state `entry` and left
  in state `exit`. -/
  | actionRead (entry exit : XMLReader)
  deriving DecidableEq, Repr

/-- The two XML readers as they act on the `*XMLReader` they are given: next
to the Go pair `(value, err)`, each returns the state in which it leaves the
reader. -/
structure ConsumingXMLReaders (P : Type) where
  XMLFaultReadOne : XMLReader → (Option Fault × Option GoError) × XMLReader
  XMLActionReadOne : XMLReader → (Option (Action P) × Option GoError) × XMLReader

/-- The values the consuming readers return, the reader state forgotten. -/
def ConsumingXMLReaders.results {P : Type} (rd : ConsumingXMLReaders P) : XMLReaders P :=
  { XMLFaultReadOne := fun reader => (rd.XMLFaultReadOne reader).1
    XMLActionReadOne := fun reader => (rd.XMLActionReadOne reader).1 }

/-- The environment of a call: what the body stream of the response still
holds, and the effects so far, oldest first. -/
structure World where
  body : ReadCloser
  events : List Event
  deriving DecidableEq, Repr

/-- The environment in which a call on `response` starts: the body stream is
untouched and nothing has happened. -/
def World.start (response : Response) : World :=
  { body := response.Body, events := [] }

/-- The operation `ioutil.ReadAll(response.Body)` on the environment: it
returns what `ReadAll` gives on the stream as the stream is now, leaves the
stream with no bytes to deliver, and records itself. -/
def readAllBody : StateM World (List UInt8 × Option GoError) := do
  let world ← get
  set { body := { chunks := [], err := world.body.err },
        events := world.events ++ [Event.readBody] : World }
  return ReadAll world.body

/-- The operation `XMLFaultReadOne(reader, nil, "")` on the environment: it
runs the fault reader on `reader` and records the run, with the state in which
it found the reader and the state in which it leaves it. -/
def runXMLFaultReadOne {P : Type} (rd : ConsumingXMLReaders P) (reader : XMLReader) :
    StateM World ((Option Fault × Option GoError) × XMLReader) := do
  let (result, exit) := rd.XMLFaultReadOne reader
  modify fun world => { world with events := world.events ++ [Event.faultRead reader exit] }
  return (result, exit)

/-- The operation `XMLActionReadOne(reader, nil, "")` on the environment: it
runs the action reader on `reader` and records the run. -/
def runXMLActionReadOne {P : Type} (rd : ConsumingXMLReaders P) (reader : XMLReader) :
    StateM World ((Option (Action P) × Option GoError) × XMLReader) := do
  let (result, exit) := rd.XMLActionReadOne reader
  modify fun world => { world with events := world.events ++ [Event.actionRead reader exit] }
  return (result, exit)

/-- The function `CheckFault(response)` over the operations on the
environment; `response.Body` is the stream of the environment. -/
def CheckFaultM {P : Type} (rd : ConsumingXMLReaders P) (response : Response) :
    StateM World (Option GoError) := do
  let (resBytes, err) ← readAllBody
  if let some err := err then
    return some (Errorf "Failed to read response, reason: %s" (FmtArg.str err.Error))

  let reader := NewXMLReader resBytes
  let ((fault, err), _) ← runXMLFaultReadOne rd reader
  if let some err := err then
    -- If the XML is not a <fault>, just return nil
    if err.isXMLTagNotMatchError then
      return none
    return some err
  if fault ≠ none ∨ response.StatusCode ≥ 400 then
    return some (BuildError (some response) fault)
  return none

/-- The function `CheckAction(response)` over the operations on the
environment; `response.Body` is the stream of the environment. -/
def CheckActionM {P : Type} (rd : ConsumingXMLReaders P) (response : Response) :
    StateM World (Option (Action P) × Option GoError) := do
  let (resBytes, err) ← readAllBody
  if let some err := err then
    return (none, some (Errorf "Failed to read response, reason: %s" (FmtArg.str err.Error)))

  let faultreader := NewXMLReader resBytes
  let ((fault, err), _) ← runXMLFaultReadOne rd faultreader
  if let some err := err then
    -- If the tag mismatches, return the err
    if !err.isXMLTagNotMatchError then
      return (none, some err)
  if let some fault := fault then
    return (none, some (BuildError (some response) (some fault)))

  let actionreader := NewXMLReader resBytes
  let ((action, err), _) ← runXMLActionReadOne rd actionreader
  if let some err := err then
    -- If the tag mismatches, return the err
    if !err.isXMLTagNotMatchError then
      return (none, some err)
  if let some action := action then
    if let some afault := action.Fault then
      return (none, some (BuildError (some response) (some afault)))
    return (some action, none)
  return (none, none)

/-- A call of `CheckFault` on `response` from the start: the result and the
effects in order. -/
def CheckFaultTraced {P : Type} (rd : ConsumingXMLReaders P) (response : Response) :
    Option GoError × List Event :=
  let (result, world) := (CheckFaultM rd response).run (World.start response)
  (result, world.events)

/-- A call of `CheckAction` on `response` from the start: the result and the
effects in order. -/
def CheckActionTraced {P : Type} (rd : ConsumingXMLReaders P) (response : Response) :
    (Option (Action P) × Option GoError) × List Event :=
  let (result, world) := (CheckActionM rd response).run (World.start response)
  (result, world.events)

/-- The sample readers as consuming readers: the fault reader leaves its
reader at the end of the input, the action reader one byte in. -/
def sampleConsumingReaders : ConsumingXMLReaders Nat :=
  { XMLFaultReadOne := fun reader => (sampleFaultReader reader, { input := [] })
    XMLActionReadOne := fun reader =>
      (sampleActionReader reader, { input := reader.input.drop 1 }) }

/-! ## Lemmas on strings, formats and the buffer -/

theorem utf8ByteSize_append (s t : String) :
    (s ++ t).utf8ByteSize = s.utf8ByteSize + t.utf8ByteSize := by
  cases s; cases t
  simp only [String.utf8ByteSize_mk, String.append, String.utf8Len_append, HAppend.hAppend,
    Append.append]
  exact String.utf8Len_append _ _

theorem utf8ByteSize_pos_iff (s : String) : 0 < s.utf8ByteSize ↔ s ≠ "" := by
  cases s with
  | mk cs =>
    cases cs with
    | nil => exact ⟨fun h => absurd h (by decide), fun h => absurd rfl h⟩
    | cons c cs =>
      simp only [String.utf8ByteSize_mk, String.utf8Len_cons]
      constructor
      · intro _ h
        have := congrArg String.data h
        simp at this
      · intro _; have := Char.utf8Size_pos c; omega

theorem Sprintf_reason (reason : String) :
    Sprintf "Fault reason is \"%s\"." (FmtArg.str reason) = reasonSegment reason := by
  apply String.ext
  simp [Sprintf, sprintfChars, reasonSegment]

theorem Sprintf_detail (detail : String) :
    Sprintf "Fault detail is \"%s\"." (FmtArg.str detail) = detailSegment detail := by
  apply String.ext
  simp [Sprintf, sprintfChars, detailSegment]

theorem Sprintf_code (code : Int) :
    Sprintf "HTTP response code is \"%d\"." (FmtArg.int code) = codeSegment code := by
  apply String.ext
  simp [Sprintf, sprintfChars, codeSegment]

theorem Sprintf_message (status : String) :
    Sprintf "HTTP response message is \"%s\"." (FmtArg.str status) = messageSegment status := by
  apply String.ext
  simp [Sprintf, sprintfChars, messageSegment]

theorem Sprintf_read_failure (text : String) :
    Sprintf "Failed to read response, reason: %s" (FmtArg.str text)
      = "Failed to read response, reason: " ++ text := by
  apply String.ext
  simp [Sprintf, sprintfChars]

theorem reasonSegment_ne_empty (reason : String) : reasonSegment reason ≠ "" := by
  intro h
  have := congrArg String.data h
  simp [reasonSegment] at this

theorem detailSegment_ne_empty (detail : String) : detailSegment detail ≠ "" := by
  intro h
  have := congrArg String.data h
  simp [detailSegment] at this

theorem codeSegment_ne_empty (code : Int) : codeSegment code ≠ "" := by
  intro h
  have := congrArg String.data h
  simp [codeSegment] at this

theorem messageSegment_ne_empty (status : String) : messageSegment status ≠ "" := by
  intro h
  have := congrArg String.data h
  simp [messageSegment] at this

/-- The text `BuildError` produces is the composer of the specification: the
present segments joined with single spaces. -/
theorem BuildError_eq_specCompose (response : Option Response) (fault : Option Fault) :
    BuildError response fault = errorsNew (specCompose response fault) := by
  have e : ¬ (0 < "".utf8ByteSize) := by decide
  have hr := fun R => (utf8ByteSize_pos_iff _).2 (reasonSegment_ne_empty R)
  have hd := fun R => (utf8ByteSize_pos_iff _).2 (detailSegment_ne_empty R)
  rcases fault with _ | ⟨_ | R, _ | D⟩ <;> rcases response with _ | r <;>
    simp [BuildError, Fault.Reason, Fault.Detail, Buffer.Len, Buffer.WriteString, Buffer.empty,
      Buffer.String, Id.run, specCompose, specSegments, joinSingleSpace,
      String.append_assoc, Sprintf_reason, Sprintf_detail, Sprintf_code, Sprintf_message,
      utf8ByteSize_append, e, hr, hd]

/-! ## Shape of the composed message -/

/-- The composed message of the sample fault under status 404, evaluated. -/
theorem BuildError_sample :
    (BuildError (some (sampleResponse 404 "404 Not Found" [])) (some sampleFault)).Error
      = "Fault reason is \"Operation Failed\". Fault detail is \"[Cannot run VM]\". HTTP response code is \"404\". HTTP response message is \"404 Not Found\"." := by
  decide

/-- The composed message without a fault and with a negative status code,
evaluated. -/
theorem BuildError_sample_no_fault :
    (BuildError (some (sampleResponse (-1) "" [])) none).Error
      = "HTTP response code is \"-1\". HTTP response message is \"\"." := by
  decide

/-- C1: for a fault with reason `R` and detail `D` and a response with status
code `C` and status text `T`, the message of `BuildError` is exactly
`Fault reason is "R". Fault detail is "D". HTTP response code is "C". HTTP response message is "T".`
with `C` in decimal; without the reason the reason segment and its following
space are omitted, without the detail the detail segment and its following
space are omitted, and the message of a present response never starts with a
space. -/
theorem BuildError_message_format (response : Response) (R D : String) :
    (BuildError (some response) (some { reason := some R, detail := some D })).Error
        = "Fault reason is \"" ++ R ++ "\". Fault detail is \"" ++ D
          ++ "\". HTTP response code is \"" ++ formatDecimal response.StatusCode
          ++ "\". HTTP response message is \"" ++ response.Status ++ "\"."
    ∧ (BuildError (some response) (some { reason := none, detail := some D })).Error
        = "Fault detail is \"" ++ D
          ++ "\". HTTP response code is \"" ++ formatDecimal response.StatusCode
          ++ "\". HTTP response message is \"" ++ response.Status ++ "\"."
    ∧ (BuildError (some response) (some { reason := some R, detail := none })).Error
        = "Fault reason is \"" ++ R
          ++ "\". HTTP response code is \"" ++ formatDecimal response.StatusCode
          ++ "\". HTTP response message is \"" ++ response.Status ++ "\"."
    ∧ (BuildError (some response) (some { reason := none, detail := none })).Error
        = "HTTP response code is \"" ++ formatDecimal response.StatusCode
          ++ "\". HTTP response message is \"" ++ response.Status ++ "\"."
    ∧ ∀ fault : Fault,
        (BuildError (some response) (some fault)).Error.data.head? ≠ some ' ' := by
  refine ⟨?_, ?_, ?_, ?_, ?_⟩
  · rw [BuildError_eq_specCompose]; apply String.ext
    simp [errorsNew, specCompose, specSegments, joinSingleSpace,
      reasonSegment, detailSegment, codeSegment, messageSegment]
  · rw [BuildError_eq_specCompose]; apply String.ext
    simp [errorsNew, specCompose, specSegments, joinSingleSpace,
      detailSegment, codeSegment, messageSegment]
  · rw [BuildError_eq_specCompose]; apply String.ext
    simp [errorsNew, specCompose, specSegments, joinSingleSpace,
      reasonSegment, codeSegment, messageSegment]
  · rw [BuildError_eq_specCompose]; apply String.ext
    simp [errorsNew, specCompose, specSegments, joinSingleSpace,
      codeSegment, messageSegment]
  · rintro ⟨_ | R', _ | D'⟩ <;> rw [BuildError_eq_specCompose] <;>
      simp [errorsNew, specCompose, specSegments, joinSingleSpace,
        reasonSegment, detailSegment, codeSegment, messageSegment]

/-! ## `CheckAction` on faults and actions -/

/-- The message of `BuildError` on a present response is never empty. -/
theorem BuildError_message_ne_empty (response : Response) (fault : Option Fault) :
    (BuildError (some response) fault).Error ≠ "" := by
  rw [BuildError_eq_specCompose]
  intro h
  have := congrArg String.data h
  rcases fault with _ | ⟨_ | R, _ | D⟩ <;>
    simp [errorsNew, specCompose, specSegments, joinSingleSpace,
      reasonSegment, detailSegment, codeSegment, messageSegment] at this

/-- C2: when the body reads and the fault reader decodes it to a fault `f`,
`CheckAction` returns no action and the error `BuildError(response, f)`, whose
message is not empty; this holds for every status code and every action
reader. -/
theorem CheckAction_top_level_fault {P : Type}
    (faultReader : XMLReader → Option Fault × Option GoError)
    (actionReader : XMLReader → Option (Action P) × Option GoError)
    (response : Response) (resBytes : List UInt8) (f : Fault)
    (hread : ReadAll response.Body = (resBytes, none))
    (hfault : faultReader (NewXMLReader resBytes) = (some f, none)) :
    CheckAction { XMLFaultReadOne := faultReader, XMLActionReadOne := actionReader } response
        = (none, some (BuildError (some response) (some f)))
    ∧ (BuildError (some response) (some f)).Error ≠ ""
    ∧ ∀ code : Int,
        CheckAction { XMLFaultReadOne := faultReader, XMLActionReadOne := actionReader }
            { response with StatusCode := code }
          = (none, some (BuildError (some { response with StatusCode := code }) (some f))) := by
  refine ⟨?_, BuildError_message_ne_empty _ _, ?_⟩
  · simp [CheckAction, hread, hfault, Id.run]
  · intro code
    simp [CheckAction, hread, hfault, Id.run]

/-- Instance of C2: the sample fault document under status 200. -/
theorem CheckAction_top_level_fault_witness :
    CheckAction { XMLFaultReadOne := sampleFaultReader, XMLActionReadOne := sampleActionReader }
        (sampleResponse 200 "200 OK" [102])
        = (none, some (BuildError (some (sampleResponse 200 "200 OK" [102])) (some sampleFault)))
    ∧ (BuildError (some (sampleResponse 200 "200 OK" [102])) (some sampleFault)).Error ≠ ""
    ∧ ∀ code : Int,
        CheckAction { XMLFaultReadOne := sampleFaultReader, XMLActionReadOne := sampleActionReader }
            { sampleResponse 200 "200 OK" [102] with StatusCode := code }
          = (none, some (BuildError
              (some { sampleResponse 200 "200 OK" [102] with StatusCode := code })
              (some sampleFault))) :=
  CheckAction_top_level_fault sampleFaultReader sampleActionReader
    (sampleResponse 200 "200 OK" [102]) [102] sampleFault rfl (by decide)

/-- C3: when the body reads, the fault reader yields no fault (no error, or a
tag mismatch) and the action reader decodes the body to an action carrying a
nested fault `nf`, `CheckAction` returns no action and the error
`BuildError(response, nf)`, whose message is composed from the reason and the
detail of the nested fault. -/
theorem CheckAction_nested_fault {P : Type} (rd : XMLReaders P) (response : Response)
    (resBytes : List UInt8) (ferr : Option GoError) (a : Action P) (nf : Fault)
    (hread : ReadAll response.Body = (resBytes, none))
    (hfault : rd.XMLFaultReadOne (NewXMLReader resBytes) = (none, ferr))
    (hferr : nilOrTagMismatch ferr = true)
    (haction : rd.XMLActionReadOne (NewXMLReader resBytes) = (some a, none))
    (hnested : a.Fault = some nf) :
    CheckAction rd response = (none, some (BuildError (some response) (some nf)))
    ∧ (BuildError (some response) (some nf)).Error
        = joinSingleSpace
            ((nf.reason.map reasonSegment).toList ++ (nf.detail.map detailSegment).toList
              ++ [codeSegment response.StatusCode, messageSegment response.Status]) := by
  constructor
  · rcases ferr with _ | e
    · simp [CheckAction, hread, hfault, haction, hnested, Id.run]
    · have he : e.isXMLTagNotMatchError = true := hferr
      simp [CheckAction, hread, hfault, haction, hnested, he, Id.run]
  · rw [BuildError_eq_specCompose]
    simp [errorsNew, specCompose, specSegments]

/-- Instance of C3: the sample action document with a nested fault. -/
theorem CheckAction_nested_fault_witness :
    CheckAction sampleReaders (sampleResponse 200 "200 OK" [110])
        = (none, some (BuildError (some (sampleResponse 200 "200 OK" [110]))
            (some sampleNestedFault)))
    ∧ (BuildError (some (sampleResponse 200 "200 OK" [110])) (some sampleNestedFault)).Error
        = joinSingleSpace
            ((sampleNestedFault.reason.map reasonSegment).toList
              ++ (sampleNestedFault.detail.map detailSegment).toList
              ++ [codeSegment (sampleResponse 200 "200 OK" [110]).StatusCode,
                  messageSegment (sampleResponse 200 "200 OK" [110]).Status]) :=
  CheckAction_nested_fault sampleReaders (sampleResponse 200 "200 OK" [110]) [110]
    (some sampleMismatch) sampleFaultyAction sampleNestedFault rfl (by decide) rfl (by decide) rfl

/-- C4: when the body reads, the fault reader yields no fault (no error, or a
tag mismatch) and the action reader decodes the body to an action `a` without
a nested fault, `CheckAction` returns `a` and a nil error, for every status
code. -/
theorem CheckAction_action_without_fault {P : Type} (rd : XMLReaders P) (response : Response)
    (resBytes : List UInt8) (ferr : Option GoError) (a : Action P)
    (hread : ReadAll response.Body = (resBytes, none))
    (hfault : rd.XMLFaultReadOne (NewXMLReader resBytes) = (none, ferr))
    (hferr : nilOrTagMismatch ferr = true)
    (haction : rd.XMLActionReadOne (NewXMLReader resBytes) = (some a, none))
    (hnested : a.Fault = none) :
    CheckAction rd response = (some a, none)
    ∧ ∀ code : Int, CheckAction rd { response with StatusCode := code } = (some a, none) := by
  rcases ferr with _ | e
  · constructor
    · simp [CheckAction, hread, hfault, haction, hnested, Id.run]
    · intro code
      simp [CheckAction, hread, hfault, haction, hnested, Id.run]
  · have he : e.isXMLTagNotMatchError = true := hferr
    constructor
    · simp [CheckAction, hread, hfault, haction, hnested, he, Id.run]
    · intro code
      simp [CheckAction, hread, hfault, haction, hnested, he, Id.run]

/-- Instance of C4: the sample action document without a fault, under status 500. -/
theorem CheckAction_action_without_fault_witness :
    CheckAction sampleReaders (sampleResponse 500 "500 Internal Server Error" [97])
        = (some sampleAction, none)
    ∧ ∀ code : Int,
        CheckAction sampleReaders
          { sampleResponse 500 "500 Internal Server Error" [97] with StatusCode := code }
          = (some sampleAction, none) :=
  CheckAction_action_without_fault sampleReaders
    (sampleResponse 500 "500 Internal Server Error" [97]) [97]
    (some sampleMismatch) sampleAction rfl (by decide) rfl (by decide) rfl

/-! ## `CheckFault` -/

/-- C5: when the body reads and the fault reader reports a root tag mismatch,
`CheckFault` returns nil, for every status code, those of 400 and above
included. -/
theorem CheckFault_tag_mismatch {P : Type} (rd : XMLReaders P) (response : Response)
    (resBytes : List UInt8) (fault : Option Fault) (e : GoError)
    (hread : ReadAll response.Body = (resBytes, none))
    (hfault : rd.XMLFaultReadOne (NewXMLReader resBytes) = (fault, some e))
    (hmismatch : e.isXMLTagNotMatchError = true) :
    CheckFault rd response = none
    ∧ ∀ code : Int, CheckFault rd { response with StatusCode := code } = none := by
  constructor
  · simp [CheckFault, hread, hfault, hmismatch, Id.run]
  · intro code
    simp [CheckFault, hread, hfault, hmismatch, Id.run]

/-- Instance of C5: a body that matches neither root tag, under status 404. -/
theorem CheckFault_tag_mismatch_witness :
    CheckFault sampleReaders (sampleResponse 404 "404 Not Found" [120]) = none
    ∧ ∀ code : Int,
        CheckFault sampleReaders
          { sampleResponse 404 "404 Not Found" [120] with StatusCode := code } = none :=
  CheckFault_tag_mismatch sampleReaders (sampleResponse 404 "404 Not Found" [120]) [120] none
    sampleMismatch rfl (by decide) rfl

/-- C6: when the body reads and the fault reader returns without error,
yielding a fault or nothing, `CheckFault` returns an error exactly when a
fault was decoded or the status code is at least 400; that error is
`BuildError(response, fault)`, and otherwise the result is nil. -/
theorem CheckFault_decoded {P : Type} (rd : XMLReaders P) (response : Response)
    (resBytes : List UInt8) (fault : Option Fault)
    (hread : ReadAll response.Body = (resBytes, none))
    (hfault : rd.XMLFaultReadOne (NewXMLReader resBytes) = (fault, none)) :
    (CheckFault rd response ≠ none ↔ (fault ≠ none ∨ response.StatusCode ≥ 400))
    ∧ (fault ≠ none ∨ response.StatusCode ≥ 400 →
        CheckFault rd response = some (BuildError (some response) fault))
    ∧ (¬ (fault ≠ none ∨ response.StatusCode ≥ 400) → CheckFault rd response = none) := by
  by_cases h : fault ≠ none ∨ response.StatusCode ≥ 400
  · have hc : CheckFault rd response = some (BuildError (some response) fault) := by
      simp only [CheckFault, hread, hfault, Id.run]
      simp [h]
    refine ⟨?_, fun _ => hc, fun h2 => absurd h h2⟩
    simp [hc, h]
  · have hc : CheckFault rd response = none := by
      simp only [CheckFault, hread, hfault, Id.run]
      simp [h]
    refine ⟨?_, fun h2 => absurd h2 h, fun _ => hc⟩
    simp only [hc, ne_eq, not_true_eq_false, false_iff]
    exact h

/-- Instance of C6: the empty body under status 404, where no fault is decoded
and the status code alone makes the error. -/
theorem CheckFault_decoded_witness :
    (CheckFault sampleReaders (sampleResponse 404 "404 Not Found" []) ≠ none ↔
        ((none : Option Fault) ≠ none
          ∨ (sampleResponse 404 "404 Not Found" []).StatusCode ≥ 400))
    ∧ ((none : Option Fault) ≠ none
          ∨ (sampleResponse 404 "404 Not Found" []).StatusCode ≥ 400 →
        CheckFault sampleReaders (sampleResponse 404 "404 Not Found" [])
          = some (BuildError (some (sampleResponse 404 "404 Not Found" [])) none))
    ∧ (¬ ((none : Option Fault) ≠ none
          ∨ (sampleResponse 404 "404 Not Found" []).StatusCode ≥ 400) →
        CheckFault sampleReaders (sampleResponse 404 "404 Not Found" []) = none) :=
  CheckFault_decoded sampleReaders (sampleResponse 404 "404 Not Found" []) []
    none rfl (by decide)

/-- C7: when the body reads and the fault reader fails with an error `e` that
is not a root tag mismatch, `CheckFault` returns `e` itself, for every status
code. -/
theorem CheckFault_decode_failure {P : Type} (rd : XMLReaders P) (response : Response)
    (resBytes : List UInt8) (fault : Option Fault) (e : GoError)
    (hread : ReadAll response.Body = (resBytes, none))
    (hfault : rd.XMLFaultReadOne (NewXMLReader resBytes) = (fault, some e))
    (hfatal : e.isXMLTagNotMatchError = false) :
    CheckFault rd response = some e
    ∧ ∀ code : Int, CheckFault rd { response with StatusCode := code } = some e := by
  constructor
  · simp [CheckFault, hread, hfault, hfatal, Id.run]
  · intro code
    simp [CheckFault, hread, hfault, hfatal, Id.run]

/-- Instance of C7: the malformed sample fault document. -/
theorem CheckFault_decode_failure_witness :
    CheckFault sampleReaders (sampleResponse 200 "200 OK" [70]) = some sampleMalformed
    ∧ ∀ code : Int,
        CheckFault sampleReaders { sampleResponse 200 "200 OK" [70] with StatusCode := code }
          = some sampleMalformed :=
  CheckFault_decode_failure sampleReaders (sampleResponse 200 "200 OK" [70]) [70] none
    sampleMalformed rfl (by decide) rfl

/-! ## `CheckAction` on decode failures and on neither document -/

/-- C8: `CheckAction` hands genuine decode failures on. When the fault reader
fails with an error `e` that is not a tag mismatch, the result is
`(nil, e)` whatever the action reader is; when the fault reader yields no
fault and the action reader fails with an error `e` that is not a tag
mismatch, the result is `(nil, e)`. The error is `e` itself. -/
theorem CheckAction_decode_failure {P : Type}
    (faultReader : XMLReader → Option Fault × Option GoError)
    (response : Response) (resBytes : List UInt8)
    (hread : ReadAll response.Body = (resBytes, none)) :
    (∀ (fault : Option Fault) (e : GoError),
        faultReader (NewXMLReader resBytes) = (fault, some e) →
        e.isXMLTagNotMatchError = false →
        ∀ actionReader : XMLReader → Option (Action P) × Option GoError,
          CheckAction { XMLFaultReadOne := faultReader, XMLActionReadOne := actionReader }
            response = (none, some e))
    ∧ (∀ (ferr : Option GoError) (action : Option (Action P)) (e : GoError)
        (actionReader : XMLReader → Option (Action P) × Option GoError),
        faultReader (NewXMLReader resBytes) = (none, ferr) →
        nilOrTagMismatch ferr = true →
        actionReader (NewXMLReader resBytes) = (action, some e) →
        e.isXMLTagNotMatchError = false →
        CheckAction { XMLFaultReadOne := faultReader, XMLActionReadOne := actionReader }
          response = (none, some e)) := by
  constructor
  · intro fault e hfault hfatal actionReader
    simp [CheckAction, hread, hfault, hfatal, Id.run]
  · intro ferr action e actionReader hfault hferr haction hfatal
    rcases ferr with _ | fe
    · simp [CheckAction, hread, hfault, haction, hfatal, Id.run]
    · have he : fe.isXMLTagNotMatchError = true := hferr
      simp [CheckAction, hread, hfault, haction, hfatal, he, Id.run]

/-- Instance of C8: the malformed sample fault document and the malformed sample action document. -/
theorem CheckAction_decode_failure_witness :
    (∀ actionReader : XMLReader → Option (Action Nat) × Option GoError,
        CheckAction { XMLFaultReadOne := sampleFaultReader, XMLActionReadOne := actionReader }
          (sampleResponse 200 "200 OK" [70]) = (none, some sampleMalformed))
    ∧ CheckAction { XMLFaultReadOne := sampleFaultReader, XMLActionReadOne := sampleActionReader }
          (sampleResponse 200 "200 OK" [65]) = (none, some sampleMalformed) :=
  ⟨(CheckAction_decode_failure sampleFaultReader (sampleResponse 200 "200 OK" [70]) [70]
      rfl).1 none sampleMalformed (by decide) rfl,
   (CheckAction_decode_failure sampleFaultReader (sampleResponse 200 "200 OK" [65]) [65]
      rfl).2 (some sampleMismatch) none sampleMalformed sampleActionReader
      (by decide) rfl (by decide) rfl⟩

/-- C9: when the body reads, the fault reader reports a root tag mismatch
without a fault and the action reader reports a root tag mismatch without an
action, `CheckAction` returns `(nil, nil)`. -/
theorem CheckAction_neither {P : Type} (rd : XMLReaders P) (response : Response)
    (resBytes : List UInt8) (ferr aerr : GoError)
    (hread : ReadAll response.Body = (resBytes, none))
    (hfault : rd.XMLFaultReadOne (NewXMLReader resBytes) = (none, some ferr))
    (hfmismatch : ferr.isXMLTagNotMatchError = true)
    (haction : rd.XMLActionReadOne (NewXMLReader resBytes) = (none, some aerr))
    (hamismatch : aerr.isXMLTagNotMatchError = true) :
    CheckAction rd response = (none, none) := by
  simp [CheckAction, hread, hfault, hfmismatch, haction, hamismatch, Id.run]

/-- Instance of C9: a body that matches neither root tag, under status 404. -/
theorem CheckAction_neither_witness :
    CheckAction sampleReaders (sampleResponse 404 "404 Not Found" [120]) = (none, none) :=
  CheckAction_neither sampleReaders (sampleResponse 404 "404 Not Found" [120]) [120]
    sampleMismatch sampleMismatch rfl (by decide) rfl (by decide) rfl

/-! ## `BuildError` against the composer of the specification -/

theorem reasonSegment_ne_detailSegment (R D : String) : reasonSegment R ≠ detailSegment D := by
  intro h
  have := congrArg String.data h
  simp [reasonSegment, detailSegment] at this

theorem reasonSegment_ne_codeSegment (R : String) (c : Int) :
    reasonSegment R ≠ codeSegment c := by
  intro h
  have := congrArg String.data h
  simp [reasonSegment, codeSegment] at this

theorem reasonSegment_ne_messageSegment (R t : String) :
    reasonSegment R ≠ messageSegment t := by
  intro h
  have := congrArg String.data h
  simp [reasonSegment, messageSegment] at this

theorem detailSegment_ne_codeSegment (D : String) (c : Int) :
    detailSegment D ≠ codeSegment c := by
  intro h
  have := congrArg String.data h
  simp [detailSegment, codeSegment] at this

theorem detailSegment_ne_messageSegment (D t : String) :
    detailSegment D ≠ messageSegment t := by
  intro h
  have := congrArg String.data h
  simp [detailSegment, messageSegment] at this

theorem codeSegment_ne_messageSegment (c : Int) (t : String) :
    codeSegment c ≠ messageSegment t := by
  intro h
  have := congrArg String.data h
  simp [codeSegment, messageSegment] at this

/-- C10: for every optional fault and optional response, the message of
`BuildError` is the list of present segments, in the order reason, detail,
HTTP code, HTTP message, joined with exactly one space between consecutive
segments and nothing before the first or after the last; no segment occurs
twice, and the HTTP code segment is present exactly when the HTTP message
segment is. -/
theorem BuildError_refines_specCompose (response : Option Response) (fault : Option Fault) :
    (BuildError response fault).Error = joinSingleSpace (specSegments response fault)
    ∧ specSegments response fault
        = ((fault.bind Fault.Reason).map reasonSegment).toList
          ++ ((fault.bind Fault.Detail).map detailSegment).toList
          ++ (match response with
              | some r => [codeSegment r.StatusCode, messageSegment r.Status]
              | none => [])
    ∧ (specSegments response fault).Nodup
    ∧ ((∃ code, codeSegment code ∈ specSegments response fault)
        ↔ (∃ status, messageSegment status ∈ specSegments response fault)) := by
  refine ⟨?_, ?_, ?_, ?_⟩
  · rw [BuildError_eq_specCompose]; rfl
  · rcases fault with _ | ⟨_ | R, _ | D⟩ <;> rcases response with _ | r <;>
      simp [specSegments, Fault.Reason, Fault.Detail]
  · rcases fault with _ | ⟨_ | R, _ | D⟩ <;> rcases response with _ | r <;>
      simp [specSegments, reasonSegment_ne_detailSegment, reasonSegment_ne_codeSegment,
        reasonSegment_ne_messageSegment, detailSegment_ne_codeSegment,
        detailSegment_ne_messageSegment, codeSegment_ne_messageSegment]
  · rcases fault with _ | ⟨_ | R, _ | D⟩ <;> rcases response with _ | r <;>
      simp [specSegments, reasonSegment_ne_codeSegment, reasonSegment_ne_messageSegment,
        detailSegment_ne_codeSegment, detailSegment_ne_messageSegment,
        codeSegment_ne_messageSegment, Ne.symm (reasonSegment_ne_codeSegment _ _),
        Ne.symm (reasonSegment_ne_messageSegment _ _),
        Ne.symm (detailSegment_ne_codeSegment _ _),
        Ne.symm (detailSegment_ne_messageSegment _ _),
        Ne.symm (codeSegment_ne_messageSegment _ _)]

/-! ## Runs of the orchestrators over the environment -/

/-- A run of `CheckFaultM` from the start: the result is that of `CheckFault`,
the stream is left drained, and the log holds the read of the body followed,
when the read succeeded, by one run of the fault reader on a new reader over
the bytes read. -/
theorem CheckFaultM_run {P : Type} (rd : ConsumingXMLReaders P) (response : Response) :
    (CheckFaultM rd response).run (World.start response)
      = (CheckFault rd.results response,
          { body := { chunks := [], err := response.Body.err },
            events := Event.readBody ::
              (if (ReadAll response.Body).2.isNone then
                [Event.faultRead (NewXMLReader (ReadAll response.Body).1)
                  (rd.XMLFaultReadOne (NewXMLReader (ReadAll response.Body).1)).2]
              else []) }) := by
  rcases h1 : ReadAll response.Body with ⟨b, _ | re⟩ <;>
  rcases h2 : rd.XMLFaultReadOne (NewXMLReader b) with
    ⟨⟨_ | f, _ | ⟨_ | _, fm⟩⟩, fexit⟩
  all_goals
    simp [CheckFaultM, CheckFault, ConsumingXMLReaders.results, readAllBody,
      runXMLFaultReadOne, World.start, Id.run,
      StateT.run, bind, StateT.bind, get, getThe, MonadStateOf.get, StateT.get, set,
      StateT.set, pure, StateT.pure, modify, modifyGet, MonadStateOf.modifyGet,
      StateT.modifyGet, h1, h2]
  all_goals split <;> simp [StateT.bind, StateT.pure]

/-- A run of `CheckActionM` from the start: the result is that of
`CheckAction`, the stream is left drained, and the log holds the read of the
body, then, when the read succeeded, one run of the fault reader on a new
reader over the bytes read, then, when the fault reader gave no fault and no
error other than a tag mismatch, one run of the action reader on another new
reader over the same bytes. -/
theorem CheckActionM_run {P : Type} (rd : ConsumingXMLReaders P) (response : Response) :
    (CheckActionM rd response).run (World.start response)
      = (CheckAction rd.results response,
          { body := { chunks := [], err := response.Body.err },
            events := Event.readBody ::
              (if (ReadAll response.Body).2.isNone then
                Event.faultRead (NewXMLReader (ReadAll response.Body).1)
                  (rd.XMLFaultReadOne (NewXMLReader (ReadAll response.Body).1)).2 ::
                (if (rd.XMLFaultReadOne (NewXMLReader (ReadAll response.Body).1)).1.1.isNone
                    ∧ nilOrTagMismatch
                        (rd.XMLFaultReadOne (NewXMLReader (ReadAll response.Body).1)).1.2
                      = true then
                  [Event.actionRead (NewXMLReader (ReadAll response.Body).1)
                    (rd.XMLActionReadOne (NewXMLReader (ReadAll response.Body).1)).2]
                else [])
              else []) }) := by
  rcases h1 : ReadAll response.Body with ⟨b, _ | re⟩
  swap
  · simp [CheckActionM, CheckAction, readAllBody, World.start, Id.run,
      StateT.run, bind, StateT.bind, get, getThe, MonadStateOf.get, StateT.get, set,
      StateT.set, pure, StateT.pure, h1]
  rcases h2 : rd.XMLFaultReadOne (NewXMLReader b) with
    ⟨⟨_ | f, _ | ⟨_ | _, fm⟩⟩, fexit⟩
  all_goals
    first
    | (simp [CheckActionM, CheckAction, ConsumingXMLReaders.results, readAllBody,
        runXMLFaultReadOne, World.start, Id.run, nilOrTagMismatch,
        StateT.run, bind, StateT.bind, get, getThe, MonadStateOf.get, StateT.get, set,
        StateT.set, pure, StateT.pure, modify, modifyGet, MonadStateOf.modifyGet,
        StateT.modifyGet, h1, h2]
       done)
    | (rcases h3 : rd.XMLActionReadOne (NewXMLReader b) with
        ⟨⟨_ | ⟨p, _ | nf⟩, _ | ⟨_ | _, am⟩⟩, aexit⟩ <;>
       simp [CheckActionM, CheckAction, ConsumingXMLReaders.results, readAllBody,
        runXMLFaultReadOne, runXMLActionReadOne, World.start, Id.run, Action.Fault,
        nilOrTagMismatch,
        StateT.run, bind, StateT.bind, get, getThe, MonadStateOf.get, StateT.get, set,
        StateT.set, pure, StateT.pure, modify, modifyGet, MonadStateOf.modifyGet,
        StateT.modifyGet, h1, h2, h3])

/-! ## Degenerate input and read failures -/

/-- C11: without a response, and with no fault or with a fault that has
neither reason nor detail, the message of `BuildError` is the empty string. -/
theorem BuildError_all_absent :
    (BuildError none none).Error = ""
    ∧ (BuildError none (some { reason := none, detail := none })).Error = "" := by
  constructor <;> rw [BuildError_eq_specCompose] <;>
    simp [errorsNew, specCompose, specSegments, joinSingleSpace]

/-- C12: when reading the body fails with the error `e`, `CheckFault` returns
an error and `CheckAction` returns no action and an error, whose message is
`Failed to read response, reason: ` followed by the text of `e`; this is so
for every pair of readers and every status code, neither of which is
consulted: the only effect of the call is the read of the body. -/
theorem read_failure_aborts (response : Response) (readSoFar : List UInt8) (e : GoError)
    (hread : ReadAll response.Body = (readSoFar, some e)) :
    (∀ (P : Type) (rd : XMLReaders P) (code : Int),
      CheckFault rd { response with StatusCode := code }
          = some (errorsNew ("Failed to read response, reason: " ++ e.Error))
      ∧ CheckAction rd { response with StatusCode := code }
          = (none, some (errorsNew ("Failed to read response, reason: " ++ e.Error)))
      ∧ CheckFault rd response
          = some (errorsNew ("Failed to read response, reason: " ++ e.Error))
      ∧ CheckAction rd response
          = (none, some (errorsNew ("Failed to read response, reason: " ++ e.Error))))
    ∧ (errorsNew ("Failed to read response, reason: " ++ e.Error)).Error
          = "Failed to read response, reason: " ++ e.Error
    ∧ (∀ (P : Type) (rd : ConsumingXMLReaders P),
        (CheckFaultTraced rd response).2 = [Event.readBody]
        ∧ (CheckActionTraced rd response).2 = [Event.readBody]) := by
  refine ⟨?_, rfl, ?_⟩
  · intro P rd code
    refine ⟨?_, ?_, ?_, ?_⟩ <;>
      simp [CheckFault, CheckAction, hread, Id.run, Errorf, Sprintf_read_failure]
  · intro P rd
    constructor
    · simp [CheckFaultTraced, CheckFaultM_run, hread]
    · simp [CheckActionTraced, CheckActionM_run, hread]

/-- Instance of C12: a body stream that breaks after two bytes, under status
200. -/
theorem read_failure_aborts_witness :
    (∀ (P : Type) (rd : XMLReaders P) (code : Int),
      CheckFault rd { sampleBrokenResponse 200 "200 OK" [60, 102] with StatusCode := code }
          = some (errorsNew ("Failed to read response, reason: " ++ sampleReadError.Error))
      ∧ CheckAction rd { sampleBrokenResponse 200 "200 OK" [60, 102] with StatusCode := code }
          = (none, some (errorsNew
              ("Failed to read response, reason: " ++ sampleReadError.Error)))
      ∧ CheckFault rd (sampleBrokenResponse 200 "200 OK" [60, 102])
          = some (errorsNew ("Failed to read response, reason: " ++ sampleReadError.Error))
      ∧ CheckAction rd (sampleBrokenResponse 200 "200 OK" [60, 102])
          = (none, some (errorsNew
              ("Failed to read response, reason: " ++ sampleReadError.Error))))
    ∧ (errorsNew ("Failed to read response, reason: " ++ sampleReadError.Error)).Error
          = "Failed to read response, reason: " ++ sampleReadError.Error
    ∧ (∀ (P : Type) (rd : ConsumingXMLReaders P),
        (CheckFaultTraced rd (sampleBrokenResponse 200 "200 OK" [60, 102])).2
          = [Event.readBody]
        ∧ (CheckActionTraced rd (sampleBrokenResponse 200 "200 OK" [60, 102])).2
          = [Event.readBody]) :=
  read_failure_aborts (sampleBrokenResponse 200 "200 OK" [60, 102]) [60, 102]
    sampleReadError rfl

/-- The message of the read failure on the sample broken response,
evaluated. -/
theorem read_failure_sample :
    (CheckFault sampleReaders (sampleBrokenResponse 200 "200 OK" [60, 102])).map GoError.Error
      = some "Failed to read response, reason: unexpected EOF" := by
  decide

/-! ## Shape of the result of `CheckAction` -/

/-- C13: the result of `CheckAction` is an action with a nil error, or no
action with a nil error, or no action with an error; an action never comes
together with an error. -/
theorem CheckAction_result_shape {P : Type} (rd : XMLReaders P) (response : Response) :
    ((∃ a, CheckAction rd response = (some a, none))
      ∨ CheckAction rd response = (none, none)
      ∨ (∃ e, CheckAction rd response = (none, some e)))
    ∧ ¬ (∃ a e, CheckAction rd response = (some a, some e)) := by
  have key : (∃ a, CheckAction rd response = (some a, none))
      ∨ CheckAction rd response = (none, none)
      ∨ (∃ e, CheckAction rd response = (none, some e)) := by
    rcases h1 : ReadAll response.Body with ⟨b, _ | re⟩
    swap
    · simp [CheckAction, h1, Id.run]
    rcases h2 : rd.XMLFaultReadOne (NewXMLReader b) with ⟨_ | f, ferr⟩
    swap
    · rcases ferr with _ | fe
      · simp [CheckAction, h1, h2, Id.run]
      · cases hfe : fe.isXMLTagNotMatchError <;> simp [CheckAction, h1, h2, hfe, Id.run]
    have hfault : ∀ fe, ferr = some fe → fe.isXMLTagNotMatchError = false →
        CheckAction rd response = (none, some fe) := by
      intro fe h hfe
      subst h
      simp [CheckAction, h1, h2, hfe, Id.run]
    rcases ferr with _ | fe
    · rcases h3 : rd.XMLActionReadOne (NewXMLReader b) with ⟨_ | a, _ | ae⟩
      · simp [CheckAction, h1, h2, h3, Id.run]
      · cases hae : ae.isXMLTagNotMatchError <;>
          simp [CheckAction, h1, h2, h3, hae, Id.run]
      · rcases h4 : a.Fault with _ | nf <;> simp [CheckAction, h1, h2, h3, h4, Id.run]
      · cases hae : ae.isXMLTagNotMatchError <;> rcases h4 : a.Fault with _ | nf <;>
          simp [CheckAction, h1, h2, h3, h4, hae, Id.run]
    · cases hfe : fe.isXMLTagNotMatchError
      · exact Or.inr (Or.inr ⟨fe, hfault fe rfl hfe⟩)
      · rcases h3 : rd.XMLActionReadOne (NewXMLReader b) with ⟨_ | a, _ | ae⟩
        · simp [CheckAction, h1, h2, h3, hfe, Id.run]
        · cases hae : ae.isXMLTagNotMatchError <;>
            simp [CheckAction, h1, h2, h3, hae, hfe, Id.run]
        · rcases h4 : a.Fault with _ | nf <;>
            simp [CheckAction, h1, h2, h3, h4, hfe, Id.run]
        · cases hae : ae.isXMLTagNotMatchError <;> rcases h4 : a.Fault with _ | nf <;>
            simp [CheckAction, h1, h2, h3, h4, hae, hfe, Id.run]
  refine ⟨key, ?_⟩
  rintro ⟨a, e, h⟩
  rcases key with ⟨a', h'⟩ | h' | ⟨e', h'⟩ <;> rw [h] at h' <;> simp at h'

/-! ## Dependence on the response -/

/-- The function `BuildError` reads only the status code and the status text
of the response. -/
theorem BuildError_congr (r₁ r₂ : Response) (fault : Option Fault)
    (hcode : r₁.StatusCode = r₂.StatusCode) (hstatus : r₁.Status = r₂.Status) :
    BuildError (some r₁) fault = BuildError (some r₂) fault := by
  rw [BuildError_eq_specCompose, BuildError_eq_specCompose]
  simp [specCompose, specSegments, hcode, hstatus]

/-- C14: the two orchestrators are functions of the bytes the body stream
delivers, the status code and the status text, and of nothing else in the
response: on two responses whose bodies read to the same bytes (and end
alike), with equal status codes and equal status texts, `CheckFault` returns
the same result and `CheckAction` returns the same result, error messages
included, whatever the protocol version, the headers, the content length and
the chunking of the body are. -/
theorem orchestrators_deterministic {P : Type} (rd : XMLReaders P) (r₁ r₂ : Response)
    (hbody : ReadAll r₁.Body = ReadAll r₂.Body)
    (hcode : r₁.StatusCode = r₂.StatusCode) (hstatus : r₁.Status = r₂.Status) :
    CheckFault rd r₁ = CheckFault rd r₂
    ∧ CheckAction rd r₁ = CheckAction rd r₂
    ∧ (CheckFault rd r₁).map GoError.Error = (CheckFault rd r₂).map GoError.Error
    ∧ (CheckAction rd r₁).2.map GoError.Error = (CheckAction rd r₂).2.map GoError.Error := by
  have hf : CheckFault rd r₁ = CheckFault rd r₂ := by
    rcases h1 : ReadAll r₂.Body with ⟨b, _ | re⟩ <;>
    rcases h2 : rd.XMLFaultReadOne (NewXMLReader b) with ⟨_ | f, _ | ⟨_ | _, fm⟩⟩ <;>
    simp [CheckFault, hbody, h1, h2, hcode, Id.run,
      BuildError_congr r₁ r₂ _ hcode hstatus]
  have ha : CheckAction rd r₁ = CheckAction rd r₂ := by
    rcases h1 : ReadAll r₂.Body with ⟨b, _ | re⟩ <;>
    rcases h2 : rd.XMLFaultReadOne (NewXMLReader b) with ⟨_ | f, _ | ⟨_ | _, fm⟩⟩ <;>
    rcases h3 : rd.XMLActionReadOne (NewXMLReader b) with
      ⟨_ | ⟨p, _ | nf⟩, _ | ⟨_ | _, am⟩⟩ <;>
    simp [CheckAction, hbody, h1, h2, h3, Action.Fault, Id.run,
      BuildError_congr r₁ r₂ _ hcode hstatus]
  exact ⟨hf, ha, by rw [hf], by rw [ha]⟩

/-- Instance of C14: the sample fault document under status 500, once in one
chunk without headers and once in three chunks with headers under another
protocol version; the two responses differ, the results do not. -/
theorem orchestrators_deterministic_witness :
    sampleResponse 500 "500 Internal Server Error" [102] ≠ sampleChunkedFaultResponse
    ∧ CheckFault sampleReaders (sampleResponse 500 "500 Internal Server Error" [102])
        = CheckFault sampleReaders sampleChunkedFaultResponse
    ∧ CheckAction sampleReaders (sampleResponse 500 "500 Internal Server Error" [102])
        = CheckAction sampleReaders sampleChunkedFaultResponse
    ∧ (CheckFault sampleReaders
          (sampleResponse 500 "500 Internal Server Error" [102])).map GoError.Error
        = (CheckFault sampleReaders sampleChunkedFaultResponse).map GoError.Error
    ∧ (CheckAction sampleReaders
          (sampleResponse 500 "500 Internal Server Error" [102])).2.map GoError.Error
        = (CheckAction sampleReaders sampleChunkedFaultResponse).2.map GoError.Error :=
  ⟨by decide,
   orchestrators_deterministic sampleReaders
    (sampleResponse 500 "500 Internal Server Error" [102]) sampleChunkedFaultResponse
    rfl rfl rfl⟩

/-- The result the two sample responses of C14 share, evaluated. -/
theorem orchestrators_deterministic_sample :
    (CheckFault sampleReaders sampleChunkedFaultResponse).map GoError.Error
      = some "Fault reason is \"Operation Failed\". Fault detail is \"[Cannot run VM]\". HTTP response code is \"500\". HTTP response message is \"500 Internal Server Error\"." := by
  decide

/-- C16: the status code decides neither whether `CheckAction` fails nor
which action it returns: with the status code replaced, the action is the
same and an error is returned exactly when one was returned before. In
particular a response of status 400 or above whose body is neither a fault
nor an action yields `(nil, nil)`. -/
theorem CheckAction_ignores_status_code {P : Type} (rd : XMLReaders P) (response : Response)
    (code : Int) :
    (CheckAction rd { response with StatusCode := code }).1 = (CheckAction rd response).1
    ∧ ((CheckAction rd { response with StatusCode := code }).2 ≠ none
        ↔ (CheckAction rd response).2 ≠ none)
    ∧ (∀ (resBytes : List UInt8) (ferr aerr : GoError),
        ReadAll response.Body = (resBytes, none) →
        rd.XMLFaultReadOne (NewXMLReader resBytes) = (none, some ferr) →
        ferr.isXMLTagNotMatchError = true →
        rd.XMLActionReadOne (NewXMLReader resBytes) = (none, some aerr) →
        aerr.isXMLTagNotMatchError = true →
        code ≥ 400 →
        CheckAction rd { response with StatusCode := code } = (none, none)) := by
  refine ⟨?_, ?_, ?_⟩
  · rcases h1 : ReadAll response.Body with ⟨b, _ | re⟩ <;>
    rcases h2 : rd.XMLFaultReadOne (NewXMLReader b) with ⟨_ | f, _ | ⟨_ | _, fm⟩⟩ <;>
    rcases h3 : rd.XMLActionReadOne (NewXMLReader b) with
      ⟨_ | ⟨p, _ | nf⟩, _ | ⟨_ | _, am⟩⟩ <;>
    simp [CheckAction, h1, h2, h3, Action.Fault, Id.run]
  · rcases h1 : ReadAll response.Body with ⟨b, _ | re⟩ <;>
    rcases h2 : rd.XMLFaultReadOne (NewXMLReader b) with ⟨_ | f, _ | ⟨_ | _, fm⟩⟩ <;>
    rcases h3 : rd.XMLActionReadOne (NewXMLReader b) with
      ⟨_ | ⟨p, _ | nf⟩, _ | ⟨_ | _, am⟩⟩ <;>
    simp [CheckAction, h1, h2, h3, Action.Fault, Id.run]
  · intro resBytes ferr aerr h1 h2 hf h3 ha _
    simp [CheckAction, h1, h2, h3, hf, ha, Id.run]

/-- Instance of C16: a body that matches neither root tag, its status code
replaced by 503. -/
theorem CheckAction_ignores_status_code_witness :
    CheckAction sampleReaders
      { sampleResponse 200 "Service Unavailable" [120] with StatusCode := 503 } = (none, none) :=
  (CheckAction_ignores_status_code sampleReaders (sampleResponse 200 "Service Unavailable" [120])
    503).2.2 [120] sampleMismatch sampleMismatch rfl (by decide) rfl (by decide) rfl (by decide)

/-! ## Errors composed by `BuildError` -/

/-- The message of `BuildError` on a present response ends in the HTTP message
segment. -/
theorem BuildError_message_ends (response : Response) (fault : Option Fault) :
    ∃ pre : String,
      (BuildError (some response) fault).Error = pre ++ messageSegment response.Status := by
  rw [BuildError_eq_specCompose]
  rcases fault with _ | ⟨_ | R, _ | D⟩
  · exact ⟨codeSegment response.StatusCode ++ " ", by
      simp [errorsNew, specCompose, specSegments, joinSingleSpace]⟩
  · exact ⟨codeSegment response.StatusCode ++ " ", by
      simp [errorsNew, specCompose, specSegments, joinSingleSpace]⟩
  · exact ⟨detailSegment D ++ " " ++ codeSegment response.StatusCode ++ " ", by
      simp [errorsNew, specCompose, specSegments, joinSingleSpace, String.append_assoc]⟩
  · exact ⟨reasonSegment R ++ " " ++ codeSegment response.StatusCode ++ " ", by
      simp [errorsNew, specCompose, specSegments, joinSingleSpace, String.append_assoc]⟩
  · exact ⟨reasonSegment R ++ " " ++ detailSegment D ++ " "
        ++ codeSegment response.StatusCode ++ " ", by
      simp [errorsNew, specCompose, specSegments, joinSingleSpace, String.append_assoc]⟩

/-- The message of `BuildError` without a response is empty exactly when the
fault is absent or has neither reason nor detail. -/
theorem BuildError_no_response_empty_iff (fault : Option Fault) :
    (BuildError none fault).Error = ""
      ↔ (fault = none ∨ fault = some { reason := none, detail := none }) := by
  rw [BuildError_eq_specCompose]
  rcases fault with _ | ⟨_ | R, _ | D⟩
  · simp [errorsNew, specCompose, specSegments, joinSingleSpace]
  · simp [errorsNew, specCompose, specSegments, joinSingleSpace]
  · simp [errorsNew, specCompose, specSegments, joinSingleSpace, detailSegment_ne_empty]
  · simp [errorsNew, specCompose, specSegments, joinSingleSpace, reasonSegment_ne_empty]
  · simp only [errorsNew, specCompose, specSegments, joinSingleSpace, Option.map_some,
      Option.toList_some, List.cons_append, List.nil_append, List.append_nil]
    constructor
    · intro h
      have := congrArg String.data h
      simp [reasonSegment] at this
    · intro h
      simp at h

/-- C17: `BuildError` always returns an error value made by `errors.New`,
never nil; its message is empty exactly when the response is absent and the
fault is absent or has neither reason nor detail. Hence every error that
`CheckFault` or `CheckAction` returns is the read failure, or the error of a
reader, or `BuildError` of the present response, whose message is not empty
and ends in `HTTP response message is "<status text>".` -/
theorem BuildError_never_nil (response : Option Response) (fault : Option Fault) :
    (∃ text, BuildError response fault = errorsNew text)
    ∧ ((BuildError response fault).Error = ""
        ↔ response = none
          ∧ (fault = none ∨ fault = some { reason := none, detail := none }))
    ∧ (∀ (P : Type) (rd : XMLReaders P) (r : Response) (e : GoError),
        CheckFault rd r = some e →
          (∃ re, (ReadAll r.Body).2 = some re
              ∧ e = errorsNew ("Failed to read response, reason: " ++ re.Error))
          ∨ (∃ reader, (rd.XMLFaultReadOne reader).2 = some e)
          ∨ (∃ f, e = BuildError (some r) f ∧ e.Error ≠ ""
              ∧ ∃ pre : String, e.Error = pre ++ messageSegment r.Status))
    ∧ (∀ (P : Type) (rd : XMLReaders P) (r : Response) (e : GoError),
        (CheckAction rd r).2 = some e →
          (∃ re, (ReadAll r.Body).2 = some re
              ∧ e = errorsNew ("Failed to read response, reason: " ++ re.Error))
          ∨ (∃ reader, (rd.XMLFaultReadOne reader).2 = some e
              ∨ (rd.XMLActionReadOne reader).2 = some e)
          ∨ (∃ f, e = BuildError (some r) (some f) ∧ e.Error ≠ ""
              ∧ ∃ pre : String, e.Error = pre ++ messageSegment r.Status)) := by
  refine ⟨⟨_, BuildError_eq_specCompose response fault⟩, ?_, ?_, ?_⟩
  · rcases response with _ | r
    · simpa using BuildError_no_response_empty_iff fault
    · simpa using BuildError_message_ne_empty r fault
  · intro P rd r e h
    rcases h1 : ReadAll r.Body with ⟨b, _ | re⟩
    swap
    · left
      refine ⟨re, rfl, ?_⟩
      simp [CheckFault, h1, Id.run, Errorf, Sprintf_read_failure] at h
      exact h.symm
    rcases h2 : rd.XMLFaultReadOne (NewXMLReader b) with ⟨fault', _ | ⟨_ | _, fm⟩⟩
    · right; right
      by_cases hc : fault' ≠ none ∨ r.StatusCode ≥ 400
      · refine ⟨fault', ?_, ?_⟩
        · simp only [CheckFault, h1, h2, Id.run] at h
          simp [hc] at h
          exact h.symm
        · have he : e = BuildError (some r) fault' := by
            simp only [CheckFault, h1, h2, Id.run] at h
            simp [hc] at h
            exact h.symm
          rw [he]
          exact ⟨BuildError_message_ne_empty r fault', BuildError_message_ends r fault'⟩
      · simp only [CheckFault, h1, h2, Id.run] at h
        simp [hc] at h
    · right; left
      refine ⟨NewXMLReader b, ?_⟩
      simp [CheckFault, h1, h2, Id.run] at h
      simp [h2, h]
    · simp [CheckFault, h1, h2, Id.run] at h
  · intro P rd r e h
    rcases h1 : ReadAll r.Body with ⟨b, _ | re⟩
    swap
    · left
      refine ⟨re, rfl, ?_⟩
      simp [CheckAction, h1, Id.run, Errorf, Sprintf_read_failure] at h
      exact h.symm
    refine Or.inr ?_
    have composed : ∀ f, BuildError (some r) (some f) = e →
        (∃ reader, (rd.XMLFaultReadOne reader).2 = some e
              ∨ (rd.XMLActionReadOne reader).2 = some e)
          ∨ (∃ f, e = BuildError (some r) (some f) ∧ e.Error ≠ ""
              ∧ ∃ pre : String, e.Error = pre ++ messageSegment r.Status) := by
      intro f he
      right
      refine ⟨f, he.symm, ?_⟩
      rw [← he]
      exact ⟨BuildError_message_ne_empty r _, BuildError_message_ends r _⟩
    have fromFault : (rd.XMLFaultReadOne (NewXMLReader b)).2 = some e →
        (∃ reader, (rd.XMLFaultReadOne reader).2 = some e
              ∨ (rd.XMLActionReadOne reader).2 = some e)
          ∨ (∃ f, e = BuildError (some r) (some f) ∧ e.Error ≠ ""
              ∧ ∃ pre : String, e.Error = pre ++ messageSegment r.Status) :=
      fun hh => Or.inl ⟨NewXMLReader b, Or.inl hh⟩
    have fromAction : (rd.XMLActionReadOne (NewXMLReader b)).2 = some e →
        (∃ reader, (rd.XMLFaultReadOne reader).2 = some e
              ∨ (rd.XMLActionReadOne reader).2 = some e)
          ∨ (∃ f, e = BuildError (some r) (some f) ∧ e.Error ≠ ""
              ∧ ∃ pre : String, e.Error = pre ++ messageSegment r.Status) :=
      fun hh => Or.inl ⟨NewXMLReader b, Or.inr hh⟩
    rcases h2 : rd.XMLFaultReadOne (NewXMLReader b) with ⟨_ | f, _ | ⟨_ | _, fm⟩⟩ <;>
    rcases h3 : rd.XMLActionReadOne (NewXMLReader b) with
      ⟨_ | ⟨p, _ | nf⟩, _ | ⟨_ | _, am⟩⟩ <;>
    simp [CheckAction, h1, h2, h3, Action.Fault, Id.run] at h <;>
    rw [h2] at fromFault <;> rw [h3] at fromAction <;>
    first
      | exact composed _ h
      | exact fromFault (congrArg some h)
      | exact fromAction (congrArg some h)

/-- Instance of C17: the error `CheckFault` returns on the empty body under
status 404 is `BuildError` of the response without a fault. -/
theorem BuildError_never_nil_witness :
    CheckFault sampleReaders (sampleResponse 404 "404 Not Found" [])
        = some (BuildError (some (sampleResponse 404 "404 Not Found" [])) none)
    ∧ ((∃ re, (ReadAll (sampleResponse 404 "404 Not Found" []).Body).2 = some re
          ∧ BuildError (some (sampleResponse 404 "404 Not Found" [])) none
              = errorsNew ("Failed to read response, reason: " ++ re.Error))
        ∨ (∃ reader, (sampleReaders.XMLFaultReadOne reader).2
              = some (BuildError (some (sampleResponse 404 "404 Not Found" [])) none))
        ∨ (∃ f, BuildError (some (sampleResponse 404 "404 Not Found" [])) none
              = BuildError (some (sampleResponse 404 "404 Not Found" [])) f
            ∧ (BuildError (some (sampleResponse 404 "404 Not Found" [])) none).Error ≠ ""
            ∧ ∃ pre : String,
                (BuildError (some (sampleResponse 404 "404 Not Found" [])) none).Error
                  = pre ++ messageSegment (sampleResponse 404 "404 Not Found" []).Status)) :=
  ⟨by decide,
   (BuildError_never_nil none none).2.2.1 Nat sampleReaders
      (sampleResponse 404 "404 Not Found" [])
      (BuildError (some (sampleResponse 404 "404 Not Found" [])) none) (by decide)⟩

/-! ## Agreement of the two orchestrators -/

/-- C18: `CheckFault` and `CheckAction` agree on top-level faults and on
malformed fault documents. When the fault reader decodes the body to a fault
`f`, both return the error `BuildError(response, f)`; when the fault reader
fails with an error `e` that is not a tag mismatch, both return `e`. -/
theorem CheckFault_CheckAction_agree {P : Type} (rd : XMLReaders P) (response : Response)
    (resBytes : List UInt8) (hread : ReadAll response.Body = (resBytes, none)) :
    (∀ f : Fault, rd.XMLFaultReadOne (NewXMLReader resBytes) = (some f, none) →
        CheckFault rd response = some (BuildError (some response) (some f))
        ∧ CheckAction rd response = (none, some (BuildError (some response) (some f)))
        ∧ (CheckFault rd response).map GoError.Error
            = (CheckAction rd response).2.map GoError.Error)
    ∧ (∀ (fault : Option Fault) (e : GoError),
        rd.XMLFaultReadOne (NewXMLReader resBytes) = (fault, some e) →
        e.isXMLTagNotMatchError = false →
        CheckFault rd response = some e ∧ CheckAction rd response = (none, some e)) := by
  constructor
  · intro f hfault
    have h1 : CheckFault rd response = some (BuildError (some response) (some f)) := by
      simp [CheckFault, hread, hfault, Id.run]
    have h2 : CheckAction rd response
        = (none, some (BuildError (some response) (some f))) := by
      simp [CheckAction, hread, hfault, Id.run]
    exact ⟨h1, h2, by rw [h1, h2]⟩
  · intro fault e hfault hfatal
    constructor
    · simp [CheckFault, hread, hfault, hfatal, Id.run]
    · simp [CheckAction, hread, hfault, hfatal, Id.run]

/-- Instance of C18: the sample fault document and the malformed sample fault
document. -/
theorem CheckFault_CheckAction_agree_witness :
    (CheckFault sampleReaders (sampleResponse 200 "200 OK" [102])
        = some (BuildError (some (sampleResponse 200 "200 OK" [102])) (some sampleFault))
      ∧ CheckAction sampleReaders (sampleResponse 200 "200 OK" [102])
        = (none, some (BuildError (some (sampleResponse 200 "200 OK" [102]))
            (some sampleFault)))
      ∧ (CheckFault sampleReaders (sampleResponse 200 "200 OK" [102])).map GoError.Error
        = (CheckAction sampleReaders (sampleResponse 200 "200 OK" [102])).2.map GoError.Error)
    ∧ (CheckFault sampleReaders (sampleResponse 200 "200 OK" [70]) = some sampleMalformed
      ∧ CheckAction sampleReaders (sampleResponse 200 "200 OK" [70])
        = (none, some sampleMalformed)) :=
  ⟨(CheckFault_CheckAction_agree sampleReaders (sampleResponse 200 "200 OK" [102]) [102]
      rfl).1 sampleFault (by decide),
   (CheckFault_CheckAction_agree sampleReaders (sampleResponse 200 "200 OK" [70]) [70]
      rfl).2 none sampleMalformed (by decide) rfl⟩

/-! ## Effects: one read of the body, independent decode passes -/

/-- The effects of `CheckAction` on the sample action document, evaluated: the
fault reader leaves its reader at the end of the input, and the action reader
is still run on a reader at the start of the whole body. -/
theorem CheckActionTraced_sample :
    CheckActionTraced sampleConsumingReaders (sampleResponse 200 "200 OK" [97])
      = ((some sampleAction, none),
          [Event.readBody,
           Event.faultRead { input := [97] } { input := [] },
           Event.actionRead { input := [97] } { input := [] }]) := by
  decide

/-- The effects of `CheckAction` on the sample fault document, evaluated: the
action reader is not run. -/
theorem CheckActionTraced_sample_fault :
    CheckActionTraced sampleConsumingReaders (sampleResponse 200 "200 OK" [102])
      = ((none, some (BuildError (some (sampleResponse 200 "200 OK" [102])) (some sampleFault))),
          [Event.readBody, Event.faultRead { input := [102] } { input := [] }]) := by
  decide

/-- C15: in every call of `CheckFault` and of `CheckAction` the body stream is
read exactly once, before any reader runs, and is left drained. When the read
succeeds the fault reader is run once, on a new `XMLReader` at the start of
the bytes read; in `CheckAction`, when the fault reader gave no fault and no
error other than a tag mismatch, the action reader is then run once, on
another new `XMLReader` at the start of the same bytes, whatever state the
fault reader left its own reader in. Nothing else happens, and the results are
those of `CheckFault` and `CheckAction`. -/
theorem body_read_once_readers_independent {P : Type} (rd : ConsumingXMLReaders P)
    (response : Response) :
    (CheckFaultTraced rd response).1 = CheckFault rd.results response
    ∧ (CheckActionTraced rd response).1 = CheckAction rd.results response
    ∧ (CheckFaultTraced rd response).2
        = Event.readBody ::
            (if (ReadAll response.Body).2.isNone then
              [Event.faultRead (NewXMLReader (ReadAll response.Body).1)
                (rd.XMLFaultReadOne (NewXMLReader (ReadAll response.Body).1)).2]
            else [])
    ∧ (CheckActionTraced rd response).2
        = Event.readBody ::
            (if (ReadAll response.Body).2.isNone then
              Event.faultRead (NewXMLReader (ReadAll response.Body).1)
                (rd.XMLFaultReadOne (NewXMLReader (ReadAll response.Body).1)).2 ::
              (if (rd.XMLFaultReadOne (NewXMLReader (ReadAll response.Body).1)).1.1.isNone
                  ∧ nilOrTagMismatch
                      (rd.XMLFaultReadOne (NewXMLReader (ReadAll response.Body).1)).1.2
                    = true then
                [Event.actionRead (NewXMLReader (ReadAll response.Body).1)
                  (rd.XMLActionReadOne (NewXMLReader (ReadAll response.Body).1)).2]
              else [])
            else [])
    ∧ (CheckFaultTraced rd response).2.count Event.readBody = 1
    ∧ (CheckActionTraced rd response).2.count Event.readBody = 1
    ∧ (∀ entry exit : XMLReader,
        (Event.faultRead entry exit ∈ (CheckFaultTraced rd response).2
          ∨ Event.faultRead entry exit ∈ (CheckActionTraced rd response).2
          ∨ Event.actionRead entry exit ∈ (CheckActionTraced rd response).2) →
        (ReadAll response.Body).2 = none ∧ entry.input = (ReadAll response.Body).1)
    ∧ ((CheckFaultM rd response).run (World.start response)).2.body
        = { chunks := [], err := response.Body.err }
    ∧ ((CheckActionM rd response).run (World.start response)).2.body
        = { chunks := [], err := response.Body.err } := by
  have hF : (CheckFaultTraced rd response).2
        = Event.readBody ::
            (if (ReadAll response.Body).2.isNone then
              [Event.faultRead (NewXMLReader (ReadAll response.Body).1)
                (rd.XMLFaultReadOne (NewXMLReader (ReadAll response.Body).1)).2]
            else []) := by
    simp [CheckFaultTraced, CheckFaultM_run]
  have hA : (CheckActionTraced rd response).2
        = Event.readBody ::
            (if (ReadAll response.Body).2.isNone then
              Event.faultRead (NewXMLReader (ReadAll response.Body).1)
                (rd.XMLFaultReadOne (NewXMLReader (ReadAll response.Body).1)).2 ::
              (if (rd.XMLFaultReadOne (NewXMLReader (ReadAll response.Body).1)).1.1.isNone
                  ∧ nilOrTagMismatch
                      (rd.XMLFaultReadOne (NewXMLReader (ReadAll response.Body).1)).1.2
                    = true then
                [Event.actionRead (NewXMLReader (ReadAll response.Body).1)
                  (rd.XMLActionReadOne (NewXMLReader (ReadAll response.Body).1)).2]
              else [])
            else []) := by
    simp [CheckActionTraced, CheckActionM_run]
  refine ⟨?_, ?_, hF, hA, ?_, ?_, ?_, ?_, ?_⟩
  · simp [CheckFaultTraced, CheckFaultM_run]
  · simp [CheckActionTraced, CheckActionM_run]
  · rw [hF]
    split <;> simp [List.count_cons]
  · rw [hA]
    split
    · split <;> simp [List.count_cons]
    · simp [List.count_cons]
  · intro entry exit h
    rw [hF, hA] at h
    rcases hr : (ReadAll response.Body).2 with _ | re
    · simp only [hr, Option.isNone_none, if_true] at h
      refine ⟨rfl, ?_⟩
      rcases h with h | h | h
      · simp at h
        rw [h.1]; rfl
      · split at h
        · simp at h
          rw [h.1]; rfl
        · simp at h
          rw [h.1]; rfl
      · split at h
        · simp at h
          rw [h.1]; rfl
        · simp at h
    · simp [hr] at h
  · rw [CheckFaultM_run]
  · rw [CheckActionM_run]

end Ovirtsdk4
